import Mathlib

/-!
Verification development for the UAV mission planner backend.

The Python core (risk model, route optimizer, mission simulator, mission
service) is embedded shallowly: dataclasses become structures, machine floats
become rationals, and calls into external numeric libraries (geopy's geodesic
distance, math.cos, math.sqrt, the learned XGBoost scorer with its SHAP
attributions) become explicit function parameters, so every definition below
is executable.  Python code that can raise (max() of an empty sequence) is
embedded in the Option monad; the try/except recovery points of the source
become Option.getD at the corresponding call sites.
-/

/-- Coordinate pair (latitude, longitude) in degrees. -/
abbrev Coord := ℚ × ℚ

/-- Oracle for geopy's geodesic distance, in kilometres.  The source reads
both .kilometers and .meters from the same Distance object; metres are
obtained by scaling by 1000. -/
abbrev GeoDist := Coord → Coord → ℚ

/-- risk_model.Waypoint dataclass. -/
structure Waypoint where
  lat : ℚ
  lng : ℚ
  altitude : ℚ
deriving DecidableEq, Repr

/-- risk_model.Mission dataclass.  The optional weather dict is an
association list so that key absence and dict truthiness are both faithful. -/
structure Mission where
  waypoints : List Waypoint
  battery_capacity : ℚ
  max_speed : ℚ
  weather_conditions : Option (List (String × ℚ))
deriving DecidableEq, Repr

/-- Key of the wind speed entry of the weather dict. -/
def windKey : String := "wind_speed"

/-- Key of the gust speed entry of the weather dict. -/
def gustKey : String := "gust_speed"

/-- Python truthiness of the optional weather dict: None and the empty dict
are both falsy. -/
def weatherTruthy : Option (List (String × ℚ)) → Bool
  | none => false
  | some l => !l.isEmpty

/-- dict.get with a default value. -/
def weatherGet (w : Option (List (String × ℚ))) (k : String) (dflt : ℚ) : ℚ :=
  ((w.getD []).lookup k).getD dflt

/-- Python max() over a list of numbers; raises (none) on an empty sequence. -/
def pyMax : List ℚ → Option ℚ
  | [] => none
  | a :: as => some (as.foldl max a)

/-- np.mean of a list (sum divided by length; the embedding returns 0 for an
empty list, a value that no caller below ever observes because max() fails on
the same emptiness first). -/
def meanQ (l : List ℚ) : ℚ := l.sum / l.length

/-- Python pattern: m = inf; for x in l: m = min(m, x); return m if finite
else dflt. -/
def pyMinD (dflt : ℚ) : List ℚ → ℚ
  | [] => dflt
  | a :: as => as.foldl min a

/-- Python int() applied to a float: truncation toward zero. -/
def pyTrunc (q : ℚ) : ℤ := if 0 ≤ q then ⌊q⌋ else ⌈q⌉

/-- Mock restricted-area centre points of risk_model (SFO airport and the
mock military base). -/
def restrictedZones : List Coord :=
  [((37621311 : ℚ)/1000000, (-122378968 : ℚ)/1000000),
   ((37759859 : ℚ)/1000000, (-122447151 : ℚ)/1000000)]

/-- RiskPredictor._calculate_route_length: sum of consecutive geodesic
distances in kilometres. -/
def calcRouteLength (d : GeoDist) (wps : List Waypoint) : ℚ :=
  ((wps.zip wps.tail).map (fun p => d (p.1.lat, p.1.lng) (p.2.lat, p.2.lng))).sum

/-- RiskPredictor._min_distance_to_restricted_areas: minimum distance in
metres from any waypoint to any restricted-zone centre, 10000 when there are
no waypoint/zone pairs. -/
def minDistanceToRestrictedAreas (d : GeoDist) (wps : List Waypoint) : ℚ :=
  pyMinD 10000
    ((wps.map (fun wp => restrictedZones.map (fun z => 1000 * d (wp.lat, wp.lng) z))).flatten)

/-- RiskPredictor._calculate_battery_margin.  max() over the waypoints raises
on an empty mission, hence the Option. -/
def calcBatteryMarginE (d : GeoDist) (m : Mission) : Option ℚ :=
  (pyMax (m.waypoints.map (·.altitude))).map (fun maxAlt =>
    let route_length := calcRouteLength d m.waypoints
    let altitude_factor := maxAlt / 100
    let wind_factor : ℚ :=
      if weatherTruthy m.weather_conditions then
        1 + (weatherGet m.weather_conditions windKey 0 / 10) * (3/10)
      else 1
    let total_consumption := route_length * 2 * altitude_factor * wind_factor
    max 0 (m.battery_capacity - total_consumption))

/-- RiskPredictor._count_waypoints_over_buildings (mock SF downtown box). -/
def countWaypointsOverBuildings (wps : List Waypoint) : ℕ :=
  wps.countP (fun wp =>
    decide ((3777 : ℚ)/100 < wp.lat ∧ wp.lat < (3779 : ℚ)/100 ∧
            (-12242 : ℚ)/100 < wp.lng ∧ wp.lng < (-12240 : ℚ)/100))

/-- RiskPredictor._check_line_of_sight: false when any consecutive segment
exceeds 5 km. -/
def checkLineOfSight (d : GeoDist) (wps : List Waypoint) : Bool :=
  if wps.length < 2 then true
  else (wps.zip wps.tail).all (fun p =>
    decide (d (p.1.lat, p.1.lng) (p.2.lat, p.2.lng) ≤ 5))

/-- RiskPredictor._calculate_terrain_roughness (mock SF hills box). -/
def calcTerrainRoughness (wps : List Waypoint) : ℚ :=
  let s := (wps.map (fun wp =>
    if (3775 : ℚ)/100 < wp.lat ∧ wp.lat < (3778 : ℚ)/100 ∧
       (-12245 : ℚ)/100 < wp.lng ∧ wp.lng < (-12242 : ℚ)/100
    then (4/5 : ℚ) else 1/5)).sum
  if wps.isEmpty then 0 else s / wps.length

/-- RiskPredictor._calculate_route_complexity. -/
def calcRouteComplexity (d : GeoDist) (m : Mission) : ℚ :=
  if m.waypoints.length < 3 then 1/10
  else
    let triples := (m.waypoints.zip m.waypoints.tail).zip m.waypoints.tail.tail
    let total_turn_angle := (triples.map (fun t =>
      let prev := t.1.1
      let curr := t.1.2
      let next := t.2
      |((curr.lat - prev.lat) - (next.lat - curr.lat))| +
      |((curr.lng - prev.lng) - (next.lng - curr.lng))|)).sum
    let route_length := calcRouteLength d m.waypoints
    min 1 ((total_turn_angle * 100 + m.waypoints.length) / max 1 route_length)

/-- The fixed safe-defaults feature vector returned when feature extraction
fails. -/
def safeDefaults : List ℚ := [1, 100, 100, 1000, 5, 7, 50, 0, 1, 1/10, 1/5, 1/10]

/-- RiskPredictor._extract_features, body of the try block; fails (none)
exactly where the Python body raises, namely at max() over an empty altitude
list (directly and inside _calculate_battery_margin). -/
def extractFeaturesE (d : GeoDist) (m : Mission) : Option (List ℚ) := do
  let route_length := calcRouteLength d m.waypoints
  let altitudes := m.waypoints.map (·.altitude)
  let avg_altitude := meanQ altitudes
  let max_altitude ← pyMax altitudes
  let weather := m.weather_conditions.getD []
  let wind_speed_avg := (weather.lookup windKey).getD 5
  let gust_max := (weather.lookup gustKey).getD (wind_speed_avg * (3/2))
  let weather_severity := min 1 (wind_speed_avg / 15)
  let min_distance_to_no_fly := minDistanceToRestrictedAreas d m.waypoints
  let battery_margin ← calcBatteryMarginE d m
  let waypoints_over_buildings := countWaypointsOverBuildings m.waypoints
  let line_of_sight_flag := checkLineOfSight d m.waypoints
  let terrain_roughness := calcTerrainRoughness m.waypoints
  let route_complexity := calcRouteComplexity d m
  pure [route_length, avg_altitude, max_altitude, min_distance_to_no_fly,
        wind_speed_avg, gust_max, battery_margin,
        (waypoints_over_buildings : ℚ), (if line_of_sight_flag then 1 else 0),
        terrain_roughness, weather_severity, route_complexity]

/-- RiskPredictor._extract_features with its except clause: any failure of
the body yields the safe-defaults vector. -/
def extractFeatures (d : GeoDist) (m : Mission) : List ℚ :=
  (extractFeaturesE d m).getD safeDefaults

/-- Wind speed as read by the rule-based fallback paths: 0 when the weather
dict is falsy, otherwise the wind_speed entry with default 0. -/
def fallbackWind (m : Mission) : ℚ :=
  if weatherTruthy m.weather_conditions then weatherGet m.weather_conditions windKey 0
  else 0

/-- RiskPredictor._fallback_risk_calculation.  Option because
_calculate_battery_margin raises on a mission without waypoints. -/
def fallbackRiskE (d : GeoDist) (m : Mission) : Option ℚ := do
  let route_length := calcRouteLength d m.waypoints
  let r1 : ℚ := if route_length > 10 then 3/10 else if route_length > 5 then 1/10 else 0
  let battery_margin ← calcBatteryMarginE d m
  let r2 : ℚ := if battery_margin < 10 then 2/5 else if battery_margin < 20 then 1/5 else 0
  let r3 : ℚ :=
    if weatherTruthy m.weather_conditions then
      let wind_speed := weatherGet m.weather_conditions windKey 0
      if wind_speed > 15 then 3/10 else if wind_speed > 10 then 1/10 else 0
    else 0
  let min_distance := minDistanceToRestrictedAreas d m.waypoints
  let r4 : ℚ := if min_distance < 500 then 2/5 else if min_distance < 1000 then 1/5 else 0
  pure (min 1 (0 + r1 + r2 + r3 + r4))

/-- The six-category risk breakdown returned by explain_risk. -/
structure RiskBreakdown where
  weather_risk : ℚ
  battery_risk : ℚ
  no_fly_risk : ℚ
  terrain_risk : ℚ
  route_risk : ℚ
  altitude_risk : ℚ
deriving DecidableEq, Repr

/-- RiskPredictor._fallback_risk_explanation. -/
def fallbackRiskExplanationE (d : GeoDist) (m : Mission) : Option RiskBreakdown := do
  let route_length := calcRouteLength d m.waypoints
  let battery_margin ← calcBatteryMarginE d m
  let min_distance := minDistanceToRestrictedAreas d m.waypoints
  let wind_speed := fallbackWind m
  pure { weather_risk := min 1 (wind_speed / 20)
         battery_risk := max 0 ((30 - battery_margin) / 30)
         no_fly_risk := max 0 ((1000 - min_distance) / 1000)
         terrain_risk := 1/5
         route_risk := min 1 (route_length / 15)
         altitude_risk := 1/10 }

/-- Per-feature attribution vector of the learned scorer (the SHAP values of
explain_risk), one rational per feature name, supplied by the injected
explainer capability. -/
structure FeatureContrib where
  route_length_km : ℚ
  avg_altitude : ℚ
  max_altitude : ℚ
  min_distance_to_no_fly : ℚ
  wind_speed_avg : ℚ
  gust_max : ℚ
  battery_margin : ℚ
  waypoints_over_buildings : ℚ
  line_of_sight_flag : ℚ
  terrain_roughness : ℚ
  weather_severity : ℚ
  route_complexity : ℚ
deriving DecidableEq, Repr

/-- explain_risk, grouping step: the per-feature attributions grouped into
the six categories. -/
def groupContrib (c : FeatureContrib) : RiskBreakdown :=
  { weather_risk := max 0 (c.wind_speed_avg + c.gust_max + c.weather_severity) / 3
    battery_risk := |c.battery_margin|
    no_fly_risk := |c.min_distance_to_no_fly|
    terrain_risk := max 0 (c.terrain_roughness + c.waypoints_over_buildings) / 2
    route_risk := max 0 (c.route_length_km + c.route_complexity) / 2
    altitude_risk := max 0 (c.avg_altitude + c.max_altitude) / 2 }

/-- max(risk_breakdown.values()) over the six categories. -/
def maxCategory (rb : RiskBreakdown) : ℚ :=
  max (max (max rb.weather_risk rb.battery_risk) (max rb.no_fly_risk rb.terrain_risk))
      (max rb.route_risk rb.altitude_risk)

/-- explain_risk, normalization step: when the maximal category is positive,
every category is rescaled by it and clamped into [0, 1]. -/
def normalizeBreakdown (rb : RiskBreakdown) : RiskBreakdown :=
  let max_val := maxCategory rb
  if max_val > 0 then
    { weather_risk := min 1 (max 0 (rb.weather_risk / max_val))
      battery_risk := min 1 (max 0 (rb.battery_risk / max_val))
      no_fly_risk := min 1 (max 0 (rb.no_fly_risk / max_val))
      terrain_risk := min 1 (max 0 (rb.terrain_risk / max_val))
      route_risk := min 1 (max 0 (rb.route_risk / max_val))
      altitude_risk := min 1 (max 0 (rb.altitude_risk / max_val)) }
  else rb

/-- explain_risk, learned-attribution path: group the attributions of the
injected explainer, then normalize. -/
def explainRiskLearned (c : FeatureContrib) : RiskBreakdown :=
  normalizeBreakdown (groupContrib c)

/-- Warning emitted for weather_risk above 0.6. -/
def warnWeather : String := "High wind conditions detected along route"

/-- Warning emitted for battery_risk above 0.7. -/
def warnBattery : String := "Insufficient battery for safe return - consider shorter route"

/-- Warning emitted for no_fly_risk above 0.5. -/
def warnNoFly : String := "Route passes near restricted airspace"

/-- Warning emitted for terrain_risk above 0.6. -/
def warnTerrain : String := "Challenging terrain detected - maintain safe altitude"

/-- MissionService._generate_warnings: sequential threshold checks appending
one fixed string each. -/
def generateWarnings (rb : RiskBreakdown) : List String :=
  let w0 : List String := []
  let w1 := if rb.weather_risk > 3/5 then w0 ++ [warnWeather] else w0
  let w2 := if rb.battery_risk > 7/10 then w1 ++ [warnBattery] else w1
  let w3 := if rb.no_fly_risk > 1/2 then w2 ++ [warnNoFly] else w2
  let w4 := if rb.terrain_risk > 3/5 then w3 ++ [warnTerrain] else w3
  w4

/-- simulator.SimulationState dataclass. -/
structure SimulationState where
  timestamp : ℚ
  position : Waypoint
  velocity : ℚ × ℚ × ℚ
  battery : ℚ
  risk_level : ℚ
  speed : ℚ
  altitude : ℚ
deriving DecidableEq, Repr

/-- Mock no-fly-zone centres used by the simulator's instantaneous risk. -/
def simNoFlyCenters : List Coord :=
  [((37621311 : ℚ)/1000000, (-122378968 : ℚ)/1000000),
   ((37759859 : ℚ)/1000000, (-122447151 : ℚ)/1000000)]

/-- MissionSimulator._calculate_current_risk. -/
def calcCurrentRisk (d : GeoDist) (pos : Waypoint) (m : Mission) : ℚ :=
  let rAlt : ℚ := (if pos.altitude > 200 then 1/10 else 0) +
                  (if pos.altitude < 80 then 1/5 else 0)
  let rWind : ℚ :=
    if weatherTruthy m.weather_conditions then
      let ws := weatherGet m.weather_conditions windKey 0
      if ws > 12 then 3/10 else if ws > 8 then 1/10 else 0
    else 0
  let dists := simNoFlyCenters.map (fun z => 1000 * d (pos.lat, pos.lng) z)
  let dmin := pyMinD 1000000000 dists
  let rZone : ℚ := if dmin < 500 then 1/2 else if dmin < 1000 then 1/5 else 0
  min 1 (rAlt + rWind + rZone)

/-- MissionSimulator._calculate_velocity; cosr models math.cos of the
radians of a latitude, sqr models math.sqrt. -/
def calcVelocity (d : GeoDist) (cosr sqr : ℚ → ℚ) (s e : Waypoint) (speed : ℚ) :
    ℚ × ℚ × ℚ :=
  let distance := 1000 * d (s.lat, s.lng) (e.lat, e.lng)
  if distance = 0 then (0, 0, 0)
  else
    let dlat := (e.lat - s.lat) * 111000
    let dlng := (e.lng - s.lng) * 111000 * cosr s.lat
    let dalt := e.altitude - s.altitude
    let total := sqr (dlat ^ 2 + dlng ^ 2 + dalt ^ 2)
    if total = 0 then (0, 0, 0)
    else ((dlat / total) * speed, (dlng / total) * speed, (dalt / total) * speed)

/-- The step count derived in MissionSimulator._simulate_segment, source line
104: max(10, int(segment_distance / (max_speed * time_step *
speed_multiplier))) with the fixed 0.5 s time step. -/
def simTotalSteps (segment_distance max_speed speed_multiplier : ℚ) : ℤ :=
  max 10 (pyTrunc (segment_distance / (max_speed * (1/2) * speed_multiplier)))

/-- One iteration of the per-step loop of MissionSimulator._simulate_segment:
interpolate the position, apply wind to the speed, consume battery (floored
at 0), recompute instantaneous risk, and advance the timestamp. -/
def segmentStep (d : GeoDist) (cosr sqr : ℚ → ℚ) (m : Mission) (mult : ℚ)
    (s e : Waypoint) (nsteps : ℕ) (i : ℕ) (st : SimulationState) : SimulationState :=
  let segment_distance := 1000 * d (s.lat, s.lng) (e.lat, e.lng)
  let altitude_change := e.altitude - s.altitude
  let progress : ℚ := if 1 < nsteps then (i : ℚ) / ((nsteps : ℚ) - 1) else 1
  let current_lat := s.lat + (e.lat - s.lat) * progress
  let current_lng := s.lng + (e.lng - s.lng) * progress
  let current_alt := s.altitude + altitude_change * progress
  let target_speed := m.max_speed * mult
  let wind_speed := fallbackWind m
  let effective_speed := max 0 (target_speed - wind_speed * (3/10))
  let distance_step := if 0 < nsteps then segment_distance / (nsteps : ℚ) else 0
  let altitude_factor := 1 + |altitude_change| / 1000
  let wind_factor := 1 + wind_speed / 10
  let battery_consumption := (distance_step / 1000) * 2 * altitude_factor * wind_factor
  { timestamp := st.timestamp + 1/2
    position := ⟨current_lat, current_lng, current_alt⟩
    velocity := calcVelocity d cosr sqr s e effective_speed
    battery := max 0 (st.battery - battery_consumption)
    risk_level := calcCurrentRisk d ⟨current_lat, current_lng, current_alt⟩ m
    speed := effective_speed
    altitude := current_alt }

/-- The for-loop of _simulate_segment: run n remaining steps from index i,
appending each new state and breaking as soon as the battery reaches 0. -/
def runSegmentSteps (f : ℕ → SimulationState → SimulationState) :
    ℕ → ℕ → SimulationState → List SimulationState
  | 0, _, _ => []
  | n + 1, i, st =>
    let st2 := f i st
    if st2.battery ≤ 0 then [st2] else st2 :: runSegmentSteps f n (i + 1) st2

/-- MissionSimulator._simulate_segment. -/
def simulateSegment (d : GeoDist) (cosr sqr : ℚ → ℚ) (m : Mission) (mult : ℚ)
    (st : SimulationState) (s e : Waypoint) : List SimulationState :=
  let segment_distance := 1000 * d (s.lat, s.lng) (e.lat, e.lng)
  let nsteps := (simTotalSteps segment_distance m.max_speed mult).toNat
  runSegmentSteps (segmentStep d cosr sqr m mult s e nsteps) nsteps 0 st

/-- The per-segment loop of simulate_mission: thread the current state
through the segments (taking the last state of a non-empty segment) and stop
once the battery is depleted.  Returns the concatenated step list and the
final current state. -/
def simSegments (d : GeoDist) (cosr sqr : ℚ → ℚ) (m : Mission) (mult : ℚ) :
    SimulationState → List (Waypoint × Waypoint) → List SimulationState × SimulationState
  | st, [] => ([], st)
  | st, (s, e) :: rest =>
    let seg := simulateSegment d cosr sqr m mult st s e
    let st2 := seg.getLastD st
    if st2.battery ≤ 0 then (seg, st2)
    else
      let r := simSegments d cosr sqr m mult st2 rest
      (seg ++ r.1, r.2)

/-- MissionSimulator._initialize_simulation (waypoints[0] is only read under
the length guard of simulate_mission, hence the irrelevant headD default). -/
def initSimState (m : Mission) : SimulationState :=
  let start := m.waypoints.headD ⟨0, 0, 100⟩
  { timestamp := 0
    position := start
    velocity := (0, 0, 0)
    battery := m.battery_capacity
    risk_level := 0
    speed := 0
    altitude := start.altitude }

/-- MissionSimulator._calculate_total_distance_flown. -/
def totalDistanceFlown (d : GeoDist) (steps : List SimulationState) : ℚ :=
  if steps.length < 2 then 0
  else ((steps.zip steps.tail).map (fun p =>
    1000 * d (p.1.position.lat, p.1.position.lng) (p.2.position.lat, p.2.position.lng))).sum

/-- The error message of simulate_mission for missions with fewer than 2
waypoints. -/
def errFewWaypointsMsg : String := "Mission must have at least 2 waypoints"

/-- Result of simulate_mission: either the error dict (only an error key) or
the success dict with its five fields. -/
inductive SimResult where
  | error (msg : String)
  | ok (steps : List SimulationState) (total_duration : ℚ) (success : Bool)
       (final_battery : ℚ) (total_distance : ℚ)
deriving DecidableEq, Repr

/-- MissionSimulator.simulate_mission. -/
def simulateMission (d : GeoDist) (cosr sqr : ℚ → ℚ) (m : Mission) (mult : ℚ) :
    SimResult :=
  if m.waypoints.length < 2 then SimResult.error errFewWaypointsMsg
  else
    let init := initSimState m
    let pairs := m.waypoints.zip m.waypoints.tail
    let run := simSegments d cosr sqr m mult init pairs
    let final_battery : ℚ := if run.1.isEmpty then 0 else run.2.battery
    SimResult.ok run.1 ((run.1.length : ℚ) * (1/2)) (decide (final_battery > 10))
      final_battery (totalDistanceFlown d run.1)

/-- Steps of a simulation result ([] for the error dict). -/
def SimResult.steps : SimResult → List SimulationState
  | SimResult.error _ => []
  | SimResult.ok s _ _ _ _ => s

/-- Success flag of a simulation result (false for the error dict, which
carries no flag). -/
def SimResult.successFlag : SimResult → Bool
  | SimResult.error _ => false
  | SimResult.ok _ _ b _ _ => b

/-- Final battery of a simulation result (0 for the error dict, which
carries no battery figure). -/
def SimResult.finalBattery : SimResult → ℚ
  | SimResult.error _ => 0
  | SimResult.ok _ _ _ fb _ => fb

/-- route_optimizer.Node dataclass.  parent holds a reference to another
node, so the type is inductive; g and f default to float inf, modelled by
the top element of WithTop. -/
inductive Node where
  | mk (lat lng altitude : ℚ) (g_cost : WithTop ℚ) (h_cost : ℚ)
       (f_cost : WithTop ℚ) (parent : Option Node)
deriving Repr

/-- Decidable equality of nodes (structural, following the parent chain). -/
def Node.decEq : (a b : Node) → Decidable (a = b)
  | Node.mk a1 b1 c1 g1 h1 f1 p1, Node.mk a2 b2 c2 g2 h2 f2 p2 =>
    letI : Decidable (p1 = p2) :=
      match p1, p2 with
      | none, none => isTrue rfl
      | some x, some y =>
        match Node.decEq x y with
        | isTrue h => isTrue (congrArg some h)
        | isFalse h => isFalse (fun he => h (Option.some.inj he))
      | none, some _ => isFalse (fun he => Option.noConfusion he)
      | some _, none => isFalse (fun he => Option.noConfusion he)
    decidable_of_iff
      (a1 = a2 ∧ b1 = b2 ∧ c1 = c2 ∧ g1 = g2 ∧ h1 = h2 ∧ f1 = f2 ∧ p1 = p2)
      (by simp)

instance : DecidableEq Node := Node.decEq

/-- Latitude of a node. -/
def Node.lat : Node → ℚ
  | Node.mk a _ _ _ _ _ _ => a

/-- Longitude of a node. -/
def Node.lng : Node → ℚ
  | Node.mk _ a _ _ _ _ _ => a

/-- Altitude of a node. -/
def Node.altitude : Node → ℚ
  | Node.mk _ _ a _ _ _ _ => a

/-- Cost from start of a node. -/
def Node.g_cost : Node → WithTop ℚ
  | Node.mk _ _ _ a _ _ _ => a

/-- Heuristic cost of a node. -/
def Node.h_cost : Node → ℚ
  | Node.mk _ _ _ _ a _ _ => a

/-- Total cost of a node. -/
def Node.f_cost : Node → WithTop ℚ
  | Node.mk _ _ _ _ _ a _ => a

/-- Python round(x, p): rounding to p decimal places, half away from the
smaller value (the tie behaviour is irrelevant to the claims). -/
def roundTo (p : ℕ) (x : ℚ) : ℚ :=
  ((round (x * (10 : ℚ) ^ p) : ℤ) : ℚ) / (10 : ℚ) ^ p

/-- The identity of a node under Node.__hash__ and Node.__eq__: latitude and
longitude rounded to 6 decimals, altitude to 1. -/
def nodeKey (n : Node) : ℚ × ℚ × ℚ :=
  (roundTo 6 n.lat, roundTo 6 n.lng, roundTo 1 n.altitude)

/-- Node.__eq__ as a Boolean predicate. -/
def nodeEqb (a b : Node) : Bool := decide (nodeKey a = nodeKey b)

/-- RouteOptimizer._heuristic_cost: straight-line distance in metres plus
half the altitude difference. -/
def heuristicCost (d : GeoDist) (n g : Node) : ℚ :=
  1000 * d (n.lat, n.lng) (g.lat, g.lng) + |g.altitude - n.altitude| * (1/2)

/-- RouteOptimizer._is_goal_reached: 100 m horizontal and 50 m vertical
tolerance. -/
def isGoalReached (d : GeoDist) (n g : Node) : Bool :=
  decide (1000 * d (n.lat, n.lng) (g.lat, g.lng) < 100 ∧ |n.altitude - g.altitude| < 50)

/-- The 8-planar plus 2-vertical movement directions of _get_neighbors. -/
def directions : List (ℚ × ℚ × ℚ) :=
  [(-1, -1, 0), (-1, 0, 0), (-1, 1, 0),
   (0, -1, 0), (0, 1, 0),
   (1, -1, 0), (1, 0, 0), (1, 1, 0),
   (0, 0, -1), (0, 0, 1)]

/-- RouteOptimizer._get_neighbors: fresh nodes (inf costs, no parent) one
adaptive step away in each direction, with altitude floored at 50 m, plus
the goal itself when within 2 km. -/
def getNeighbors (d : GeoDist) (node goal : Node) : List Node :=
  let distance_to_goal := 1000 * d (node.lat, node.lng) (goal.lat, goal.lng)
  let step_multiplier : ℚ :=
    if distance_to_goal > 5000 then 5 else if distance_to_goal > 1000 then 2 else 1
  let lat_step := (1/1000 : ℚ) * step_multiplier
  let lng_step := (1/1000 : ℚ) * step_multiplier
  let alt_step := (20 : ℚ) * step_multiplier
  let base := directions.map (fun dir =>
    Node.mk (node.lat + dir.1 * lat_step) (node.lng + dir.2.1 * lng_step)
      (max 50 (node.altitude + dir.2.2 * alt_step)) ⊤ 0 ⊤ none)
  if distance_to_goal < 2000 then
    base ++ [Node.mk goal.lat goal.lng goal.altitude ⊤ 0 ⊤ none]
  else base

/-- RouteOptimizer._calculate_terrain_penalty. -/
def terrainPenalty (n : Node) : ℚ :=
  if (3777 : ℚ)/100 < n.lat ∧ n.lat < (3779 : ℚ)/100 ∧
     (-12242 : ℚ)/100 < n.lng ∧ n.lng < (-12240 : ℚ)/100 then 100
  else if (3775 : ℚ)/100 < n.lat ∧ n.lat < (3778 : ℚ)/100 ∧
          (-12245 : ℚ)/100 < n.lng ∧ n.lng < (-12242 : ℚ)/100 then 50
  else 0

/-- No-fly zones of the route optimizer with their radii in metres. -/
def noFlyZonesR : List (ℚ × ℚ × ℚ) :=
  [((37621311 : ℚ)/1000000, (-122378968 : ℚ)/1000000, 2000),
   ((37759859 : ℚ)/1000000, (-122447151 : ℚ)/1000000, 1000)]

/-- Loop of RouteOptimizer._calculate_no_fly_penalty: early return 10000
inside a zone, otherwise track the minimal near-zone penalty (none models
the initial float inf, mapped to 0 at the end). -/
def noFlyPenaltyGo (d : GeoDist) (la ln : ℚ) : List (ℚ × ℚ × ℚ) → Option ℚ → ℚ
  | [], acc => acc.getD 0
  | z :: zs, acc =>
    let dist := 1000 * d (la, ln) (z.1, z.2.1)
    if dist < z.2.2 then 10000
    else if dist < z.2.2 * 2 then
      let penalty := 500 * (1 - (dist - z.2.2) / z.2.2)
      noFlyPenaltyGo d la ln zs
        (some (match acc with | none => penalty | some a => min a penalty))
    else noFlyPenaltyGo d la ln zs acc

/-- RouteOptimizer._calculate_no_fly_penalty. -/
def noFlyPenalty (d : GeoDist) (n : Node) : ℚ :=
  noFlyPenaltyGo d n.lat n.lng noFlyZonesR none

/-- Waypoint built from a node, as in the goal branch of the search. -/
def nodeToWaypoint (n : Node) : Waypoint := ⟨n.lat, n.lng, n.altitude⟩

/-- RouteOptimizer._calculate_edge_cost.  The risk parameter models
risk_predictor.predict_mission_risk, whose own try/except makes the call
total in the source. -/
def calculateEdgeCost (d : GeoDist) (risk : Mission → ℚ) (m : Mission)
    (fromN toN : Node) : ℚ :=
  let distance := 1000 * d (fromN.lat, fromN.lng) (toN.lat, toN.lng)
  let altitude_cost := |toN.altitude - fromN.altitude| * (1/10)
  let segment_mission : Mission :=
    ⟨[nodeToWaypoint fromN, nodeToWaypoint toN],
     m.battery_capacity, m.max_speed, m.weather_conditions⟩
  let risk_cost := risk segment_mission * distance * 2
  distance + altitude_cost + risk_cost + terrainPenalty toN + noFlyPenalty d toN

/-- The body of the neighbor loop of _find_optimal_path (source lines
110-128), as a transformation of the OPEN list.  The pushed object is the
one later mutated, so a newly inserted neighbor carries its final parent and
costs; a neighbor whose identity is already in OPEN leaves OPEN unchanged in
every case, because the guard compares against the freshly generated
neighbor's own infinite g_cost and the subsequent writes land on that fresh
object, not on the entry stored in OPEN. -/
def processNeighbor (ec hc : Node → Node → ℚ) (goal cur nb : Node)
    (openl closedl : List Node) : List Node :=
  if closedl.any (nodeEqb nb) then openl
  else
    let tentative : WithTop ℚ := cur.g_cost + ((ec cur nb : ℚ) : WithTop ℚ)
    if openl.any (nodeEqb nb) = false then
      openl ++ [Node.mk nb.lat nb.lng nb.altitude tentative (hc nb goal)
                  (tentative + ((hc nb goal : ℚ) : WithTop ℚ)) (some cur)]
    else if nb.g_cost ≤ tentative then
      openl
    else
      openl

/-- heapq.heappop on the OPEN list ordered by Node.__lt__ (f_cost): remove
a node of minimal f_cost. -/
def popMin : List Node → Option (Node × List Node)
  | [] => none
  | n :: ns =>
    match popMin ns with
    | none => some (n, [])
    | some (m, rest) => if m.f_cost < n.f_cost then some (m, n :: rest) else some (n, ns)

/-- RouteOptimizer._reconstruct_path: follow parent references back to the
start, then reverse. -/
def reconstructPath : Node → List Node
  | Node.mk lat lng alt g h f none => [Node.mk lat lng alt g h f none]
  | Node.mk lat lng alt g h f (some p) =>
    reconstructPath p ++ [Node.mk lat lng alt g h f (some p)]

/-- The while loop of _find_optimal_path: bounded by the remaining iteration
budget, pop a minimal-f node, stop with it when it reaches the goal,
otherwise close it and fold the neighbor processing over its neighbors.
Returns none when OPEN empties or the budget runs out. -/
def astarSearch (d : GeoDist) (ec hc : Node → Node → ℚ) (goalN : Node) :
    ℕ → List Node → List Node → Option Node
  | 0, _, _ => none
  | fuel + 1, openl, closedl =>
    match popMin openl with
    | none => none
    | some (current, rest) =>
      if isGoalReached d current goalN then some current
      else
        let closed2 := closedl ++ [current]
        let open2 := (getNeighbors d current goalN).foldl
          (fun o nb => processNeighbor ec hc goalN current nb o closed2) rest
        astarSearch d ec hc goalN fuel open2 closed2

/-- Goal node of a waypoint pair (fresh costs, no parent). -/
def goalNodeOf (goal : Waypoint) : Node :=
  Node.mk goal.lat goal.lng goal.altitude ⊤ 0 ⊤ none

/-- Start node of a waypoint pair: g = 0, h the heuristic to the goal, and
f = h, as in lines 83-85 of the source. -/
def initialStartNode (hc : Node → Node → ℚ) (start goal : Waypoint) : Node :=
  let s0 := Node.mk start.lat start.lng start.altitude ⊤ 0 ⊤ none
  let h := hc s0 (goalNodeOf goal)
  Node.mk start.lat start.lng start.altitude 0 h ((h : ℚ) : WithTop ℚ) none

/-- _find_optimal_path generalized over the iteration budget and the initial
OPEN and CLOSED contents: reconstruct the path when the search reaches the
goal, and degrade to the direct two-point segment otherwise. -/
def findOptimalPathGen (d : GeoDist) (ec hc : Node → Node → ℚ)
    (start goal : Waypoint) (fuel : ℕ) (openl closedl : List Node) : List Waypoint :=
  match astarSearch d ec hc (goalNodeOf goal) fuel openl closedl with
  | some n => (reconstructPath n).map nodeToWaypoint
  | none => [start, goal]

/-- RouteOptimizer._find_optimal_path: the search from the start node with
the 1000-iteration cap. -/
def findOptimalPath (d : GeoDist) (ec hc : Node → Node → ℚ)
    (start goal : Waypoint) : List Waypoint :=
  findOptimalPathGen d ec hc start goal 1000 [initialStartNode hc start goal] []

/-- RouteOptimizer.optimize_route: first waypoint, then each per-pair
segment with its start dropped.  Total by construction, mirroring the
catch-all except of the source. -/
def optimizeRoute (d : GeoDist) (risk : Mission → ℚ) (m : Mission) : List Waypoint :=
  if m.waypoints.length < 2 then m.waypoints
  else
    match m.waypoints with
    | [] => m.waypoints
    | w0 :: rest =>
      (m.waypoints.zip rest).foldl
        (fun acc se =>
          acc ++ (findOptimalPath d (calculateEdgeCost d risk m) (heuristicCost d)
                    se.1 se.2).drop 1)
        [w0]

/-- Modelled from the spec: the neighbor-processing step the claim
describes.  The tentative g-cost is compared against the previously
recorded g-cost for the neighbor identity (the matching entry in OPEN,
infinite when absent); when not better the neighbor is skipped, otherwise
its parent is set to the current node, its costs are updated and it is
(re)inserted into OPEN. -/
def processNeighborClaim (ec hc : Node → Node → ℚ) (goal cur nb : Node)
    (openl closedl : List Node) : List Node :=
  if closedl.any (nodeEqb nb) then openl
  else
    let recorded : WithTop ℚ :=
      match openl.find? (nodeEqb nb) with
      | some entry => entry.g_cost
      | none => ⊤
    let tentative : WithTop ℚ := cur.g_cost + ((ec cur nb : ℚ) : WithTop ℚ)
    if recorded ≤ tentative then openl
    else
      (openl.filter (fun n => !(nodeEqb nb n))) ++
        [Node.mk nb.lat nb.lng nb.altitude tentative (hc nb goal)
           (tentative + ((hc nb goal : ℚ) : WithTop ℚ)) (some cur)]

/-- Modelled from the spec: the step-count formula the claim states,
max(10, floor(segment_distance / (max_speed × time_step))), independent of
the caller-supplied speed multiplier. -/
def claimStepCount (segment_distance max_speed : ℚ) : ℤ :=
  max 10 ⌊segment_distance / (max_speed * (1/2))⌋

/-- Constant 3 km distance oracle used for concrete instances. -/
def constDist3 : GeoDist := fun _ _ => 3

/-- Taxicab distance oracle: zero on the diagonal and nonnegative, used for
concrete instances about restricted-zone centres. -/
def taxicab : GeoDist := fun a b => |a.1 - b.1| + |a.2 - b.2|

/-- A two-waypoint mission away from every mock zone, with no weather. -/
def sampleMissionA : Mission := ⟨[⟨0, 0, 100⟩, ⟨0, 0, 100⟩], 100, 15, none⟩

/-- A single-waypoint mission. -/
def sampleOneWp : Mission := ⟨[⟨0, 0, 100⟩], 100, 15, none⟩

/-- A mission whose first waypoint sits exactly on the SFO restricted-zone
centre point. -/
def sampleZoneMission : Mission :=
  ⟨[⟨(37621311 : ℚ)/1000000, (-122378968 : ℚ)/1000000, 100⟩, ⟨0, 0, 100⟩], 100, 15, none⟩

/-- Constant edge-cost function for concrete A* instances. -/
def sampleEc : Node → Node → ℚ := fun _ _ => 1

/-- Constant heuristic function for concrete A* instances. -/
def sampleHc : Node → Node → ℚ := fun _ _ => 7

/-- A goal node for concrete A* instances. -/
def sampleGoalN : Node := Node.mk 5 5 100 ⊤ 0 ⊤ none

/-- A current node with g-cost 0, as popped from OPEN. -/
def sampleCur : Node := Node.mk 0 0 100 ((0 : ℚ) : WithTop ℚ) 0 ((0 : ℚ) : WithTop ℚ) none

/-- A freshly generated neighbor (default infinite costs, no parent). -/
def sampleNb : Node := Node.mk 1 1 100 ⊤ 0 ⊤ none

/-- An OPEN entry with the same rounded identity as the fresh neighbor and
recorded g-cost 100. -/
def sampleOpenEntry : Node :=
  Node.mk 1 1 100 ((100 : ℚ) : WithTop ℚ) 7 ((107 : ℚ) : WithTop ℚ) none

/-- C3: for every distance oracle, edge-cost and heuristic function, waypoint
pair, iteration budget and OPEN/CLOSED contents, when the per-pair A* search
ends by exhausting the iteration budget or emptying OPEN without reaching the
goal tolerance (astarSearch returns none), _find_optimal_path returns exactly
the direct two-point segment [start, goal].  The source instance is fuel =
1000 from OPEN = [start node]; the embedding of optimize_route is a total
function, mirroring the catch-all exception handler of the source, so no
valid mission can make the optimizer raise. -/
theorem c3_search_exhaustion_direct_segment (d : GeoDist) (ec hc : Node → Node → ℚ)
    (start goal : Waypoint) (fuel : ℕ) (openl closedl : List Node)
    (h : astarSearch d ec hc (goalNodeOf goal) fuel openl closedl = none) :
    findOptimalPathGen d ec hc start goal fuel openl closedl = [start, goal] := by
  unfold findOptimalPathGen
  rw [h]

/-- Witness for C3 at a concrete exhausted search (budget 0). -/
theorem c3_search_exhaustion_direct_segment_witness :
    astarSearch (fun _ _ => 1) (fun _ _ => 1) (fun _ _ => 1)
        (goalNodeOf ⟨1, 1, 100⟩) 0 [] [] = none ∧
    findOptimalPathGen (fun _ _ => 1) (fun _ _ => 1) (fun _ _ => 1)
        ⟨0, 0, 100⟩ ⟨1, 1, 100⟩ 0 [] [] = [⟨0, 0, 100⟩, ⟨1, 1, 100⟩] :=
  ⟨rfl, c3_search_exhaustion_direct_segment (fun _ _ => 1) (fun _ _ => 1) (fun _ _ => 1)
    ⟨0, 0, 100⟩ ⟨1, 1, 100⟩ 0 [] [] rfl⟩

/-- C5 counterexample: with segment distance 150 m, max speed 15 m/s and
speed multiplier 2, line 104 of the simulator yields 10 steps, while the
claimed multiplier-independent formula yields 20. -/
theorem c5_counterexample : simTotalSteps 150 15 2 ≠ claimStepCount 150 15 := by
  have h1 : simTotalSteps 150 15 2 = 10 := by norm_num [simTotalSteps, pyTrunc]
  have h2 : claimStepCount 150 15 = 20 := by norm_num [claimStepCount]
  rw [h1, h2]
  decide

/-- C5 (amended): the step count equals max(10, floor(segment_distance /
(max_speed × time_step × speed_multiplier))) — the caller-supplied speed
multiplier scales the denominator. -/
theorem c5_amended (dist ms mult : ℚ) (h0 : 0 ≤ dist) (h1 : 0 < ms) (h2 : 0 < mult) :
    simTotalSteps dist ms mult = max 10 ⌊dist / (ms * (1/2) * mult)⌋ := by
  unfold simTotalSteps pyTrunc
  rw [if_pos]
  positivity

/-- Witness for C5 (amended) at distance 150 m, max speed 15, multiplier 2. -/
theorem c5_amended_witness :
    (0 : ℚ) ≤ 150 ∧ (0 : ℚ) < 15 ∧ (0 : ℚ) < 2 ∧
    simTotalSteps 150 15 2 = max 10 ⌊(150 : ℚ) / (15 * (1/2) * 2)⌋ :=
  ⟨by norm_num, by norm_num, by norm_num,
   c5_amended 150 15 2 (by norm_num) (by norm_num) (by norm_num)⟩

/-- Evaluation of feature extraction on the one-waypoint mission. -/
lemma extractFeatures_oneWp :
    extractFeatures constDist3 sampleOneWp =
      [0, 100, 100, 3000, 5, 15/2, 100, 0, 1, 1/5, 1/3, 1/10] := by
  norm_num [extractFeatures, extractFeaturesE, sampleOneWp, constDist3,
    calcRouteLength, meanQ, pyMax, minDistanceToRestrictedAreas, pyMinD,
    restrictedZones, calcBatteryMarginE, weatherTruthy, countWaypointsOverBuildings,
    checkLineOfSight, calcTerrainRoughness, calcRouteComplexity, min_def, max_def]

/-- C7 counterexample: a mission with exactly 1 waypoint (which the claim
explicitly includes) makes feature extraction return computed values, not
the safe-defaults vector: max() over one altitude succeeds, so nothing in
the try block raises. -/
theorem c7_counterexample :
    extractFeatures constDist3 sampleOneWp ≠ safeDefaults := by
  rw [extractFeatures_oneWp]
  norm_num [safeDefaults]

/-- C7 (amended): feature extraction returns the fixed safe-defaults vector
for every mission with 0 waypoints (max() of the empty altitude sequence
raises and the except clause answers), while a mission with exactly 1
waypoint returns the normally computed feature vector without raising
(concrete instance shown). -/
theorem c7_amended :
    (∀ (d : GeoDist) (cap ms : ℚ) (w : Option (List (String × ℚ))),
      extractFeatures d ⟨[], cap, ms, w⟩ = safeDefaults) ∧
    extractFeatures constDist3 sampleOneWp =
      [0, 100, 100, 3000, 5, 15/2, 100, 0, 1, 1/5, 1/3, 1/10] := by
  exact ⟨fun d cap ms w => rfl, extractFeatures_oneWp⟩

/-- C10: simulate_mission on a mission with fewer than 2 waypoints returns
the error dict (a value carrying only the fixed message, with no states,
success flag or battery figure) and, being a total function, raises
nothing. -/
theorem c10_short_mission_error (d : GeoDist) (cosr sqr : ℚ → ℚ) (m : Mission)
    (mult : ℚ) (h : m.waypoints.length < 2) :
    simulateMission d cosr sqr m mult = SimResult.error errFewWaypointsMsg := by
  unfold simulateMission
  rw [if_pos h]

/-- Witness for C10 at a concrete single-waypoint mission. -/
theorem c10_short_mission_error_witness :
    (⟨[⟨0, 0, 100⟩], 100, 15, none⟩ : Mission).waypoints.length < 2 ∧
    simulateMission (fun _ _ => 1) (fun _ => 1) (fun _ => 1)
        ⟨[⟨0, 0, 100⟩], 100, 15, none⟩ 1 = SimResult.error errFewWaypointsMsg :=
  ⟨by decide,
   c10_short_mission_error (fun _ _ => 1) (fun _ => 1) (fun _ => 1)
     ⟨[⟨0, 0, 100⟩], 100, 15, none⟩ 1 (by decide)⟩

/-- C9: the warning list holds exactly one copy of the fixed weather,
battery, no-fly and terrain warning strings when and only when the
corresponding threshold condition holds, and contains nothing else. -/
theorem c9_warning_thresholds (rb : RiskBreakdown) :
    (generateWarnings rb).count warnWeather = (if rb.weather_risk > 3/5 then 1 else 0) ∧
    (generateWarnings rb).count warnBattery = (if rb.battery_risk > 7/10 then 1 else 0) ∧
    (generateWarnings rb).count warnNoFly = (if rb.no_fly_risk > 1/2 then 1 else 0) ∧
    (generateWarnings rb).count warnTerrain = (if rb.terrain_risk > 3/5 then 1 else 0) ∧
    ∀ s ∈ generateWarnings rb,
      s = warnWeather ∨ s = warnBattery ∨ s = warnNoFly ∨ s = warnTerrain := by
  unfold generateWarnings
  split_ifs <;> refine ⟨?_, ?_, ?_, ?_, ?_⟩ <;> decide

/-- The fresh neighbor and the stored OPEN entry share a rounded identity. -/
lemma sampleNb_key : nodeEqb sampleNb sampleOpenEntry = true := by
  simp [nodeEqb, sampleNb, sampleOpenEntry, nodeKey, Node.lat, Node.lng, Node.altitude]

/-- C1 counterexample: the neighbor identity is already in OPEN with
recorded g-cost 100 and the tentative g-cost through the current node is 1,
strictly better; the claimed step would set the parent, update the costs and
reinsert, but the code leaves OPEN unchanged, because its guard compares the
tentative cost against the freshly generated neighbor's own infinite default
g-cost and its updates land on that fresh, immediately discarded object. -/
theorem c1_counterexample :
    processNeighbor sampleEc sampleHc sampleGoalN sampleCur sampleNb
        [sampleOpenEntry] [] = [sampleOpenEntry] ∧
    processNeighbor sampleEc sampleHc sampleGoalN sampleCur sampleNb
        [sampleOpenEntry] [] ≠
      processNeighborClaim sampleEc sampleHc sampleGoalN sampleCur sampleNb
        [sampleOpenEntry] [] := by
  have hcode : processNeighbor sampleEc sampleHc sampleGoalN sampleCur sampleNb
      [sampleOpenEntry] [] = [sampleOpenEntry] := by
    simp [processNeighbor, sampleNb_key]
  have hfind : List.find? (nodeEqb sampleNb) [sampleOpenEntry] = some sampleOpenEntry := by
    simp [sampleNb_key]
  have hfil : List.filter (fun n => !(nodeEqb sampleNb n)) [sampleOpenEntry] = [] := by
    simp [List.filter_cons, sampleNb_key]
  have h01 : sampleCur.g_cost + ((sampleEc sampleCur sampleNb : ℚ) : WithTop ℚ) =
      ((1 : ℚ) : WithTop ℚ) := by
    norm_num [sampleCur, sampleEc, Node.g_cost, ← WithTop.coe_add]
  have hrec : ¬ (sampleOpenEntry.g_cost ≤ ((1 : ℚ) : WithTop ℚ)) := by
    norm_num [sampleOpenEntry, Node.g_cost, WithTop.coe_le_coe]
  have hclaim : processNeighborClaim sampleEc sampleHc sampleGoalN sampleCur sampleNb
      [sampleOpenEntry] [] =
      [Node.mk 1 1 100 ((1 : ℚ) : WithTop ℚ) 7 ((8 : ℚ) : WithTop ℚ) (some sampleCur)] := by
    simp only [processNeighborClaim, List.any_nil, Bool.false_eq_true, if_false, hfind, h01]
    rw [if_neg hrec]
    simp only [hfil, List.nil_append]
    norm_num [sampleNb, sampleHc, Node.lat, Node.lng, Node.altitude, ← WithTop.coe_add]
  refine ⟨hcode, ?_⟩
  rw [hcode, hclaim]
  intro h
  have h2 := List.head_eq_of_cons_eq h
  rw [sampleOpenEntry] at h2
  simp only [Node.mk.injEq] at h2
  have h3 := h2.2.2.2.1
  rw [WithTop.coe_eq_coe] at h3
  norm_num at h3

/-- C1 (amended): for every neighbor whose identity is not in CLOSED — when
the identity is not already in OPEN, the neighbor is pushed into OPEN
carrying parent = current and the updated g/h/f costs; when the identity is
already in OPEN, the OPEN list is left entirely unchanged (no skip on a
worse tentative cost, no update or reinsertion on a better one), because
the comparison uses the fresh neighbor object's default infinite g-cost and
the subsequent writes mutate that discarded object. -/
theorem c1_amended (ec hc : Node → Node → ℚ) (goal cur nb : Node)
    (openl closedl : List Node) (h : closedl.any (nodeEqb nb) = false) :
    processNeighbor ec hc goal cur nb openl closedl =
      if openl.any (nodeEqb nb) then openl
      else openl ++ [Node.mk nb.lat nb.lng nb.altitude
        (cur.g_cost + ((ec cur nb : ℚ) : WithTop ℚ)) (hc nb goal)
        (cur.g_cost + ((ec cur nb : ℚ) : WithTop ℚ) + ((hc nb goal : ℚ) : WithTop ℚ))
        (some cur)] := by
  unfold processNeighbor
  rw [h]
  by_cases ho : openl.any (nodeEqb nb)
  · rw [if_pos ho]
    simp only [ho, Bool.true_eq_false, if_false, if_neg (Bool.false_ne_true)]
    split <;> rfl
  · rw [if_neg ho]
    simp only [Bool.not_eq_true] at ho
    simp [ho]

/-- Witness for C1 (amended) with empty OPEN and CLOSED: the neighbor is
pushed with its final parent and costs. -/
theorem c1_amended_witness :
    ([] : List Node).any (nodeEqb sampleNb) = false ∧
    processNeighbor sampleEc sampleHc sampleGoalN sampleCur sampleNb [] [] =
      (if ([] : List Node).any (nodeEqb sampleNb) then ([] : List Node)
       else [] ++ [Node.mk sampleNb.lat sampleNb.lng sampleNb.altitude
         (sampleCur.g_cost + ((sampleEc sampleCur sampleNb : ℚ) : WithTop ℚ))
         (sampleHc sampleNb sampleGoalN)
         (sampleCur.g_cost + ((sampleEc sampleCur sampleNb : ℚ) : WithTop ℚ) +
           ((sampleHc sampleNb sampleGoalN : ℚ) : WithTop ℚ))
         (some sampleCur)]) :=
  ⟨rfl, c1_amended sampleEc sampleHc sampleGoalN sampleCur sampleNb [] [] rfl⟩

/-- Each threshold addend of the fallback risk calculation is nonnegative. -/
lemma addend_nonneg (x a b : ℚ) (t1 t2 : ℚ) (h1 : 0 ≤ a) (h2 : 0 ≤ b) :
    0 ≤ (if x > t1 then a else if x > t2 then b else 0) := by
  split_ifs <;> simp [h1, h2]

/-- C2: for every distance oracle and every mission with at least one
waypoint (so that the battery-margin computation is defined), the rule-based
fallback risk score is exactly min(1, sum of the four threshold addends over
route length, battery margin, wind speed and minimal restricted-zone
distance), the score lies in [0, 1], and identical missions yield identical
scores. -/
theorem c2_fallback_risk_formula (d : GeoDist) (m : Mission)
    (hw : m.waypoints ≠ []) :
    fallbackRiskE d m =
      some (min 1
        ((if calcRouteLength d m.waypoints > 10 then 3/10
          else if calcRouteLength d m.waypoints > 5 then 1/10 else 0) +
         (if (calcBatteryMarginE d m).getD 0 < 10 then 2/5
          else if (calcBatteryMarginE d m).getD 0 < 20 then 1/5 else 0) +
         (if fallbackWind m > 15 then 3/10
          else if fallbackWind m > 10 then 1/10 else 0) +
         (if minDistanceToRestrictedAreas d m.waypoints < 500 then 2/5
          else if minDistanceToRestrictedAreas d m.waypoints < 1000 then 1/5 else 0))) ∧
    0 ≤ (fallbackRiskE d m).getD 0 ∧ (fallbackRiskE d m).getD 0 ≤ 1 ∧
    ∀ m2 : Mission, m2 = m → fallbackRiskE d m2 = fallbackRiskE d m := by
  obtain ⟨a, as, hwp⟩ : ∃ a as, m.waypoints = a :: as := by
    cases hv : m.waypoints with
    | nil => exact absurd hv hw
    | cons a as => exact ⟨a, as, rfl⟩
  obtain ⟨bm, hbm⟩ : ∃ bm, calcBatteryMarginE d m = some bm := by
    simp [calcBatteryMarginE, hwp, pyMax]
  have hmain : fallbackRiskE d m =
      some (min 1
        ((if calcRouteLength d m.waypoints > 10 then 3/10
          else if calcRouteLength d m.waypoints > 5 then 1/10 else 0) +
         (if bm < 10 then 2/5 else if bm < 20 then 1/5 else 0) +
         (if fallbackWind m > 15 then 3/10
          else if fallbackWind m > 10 then 1/10 else 0) +
         (if minDistanceToRestrictedAreas d m.waypoints < 500 then 2/5
          else if minDistanceToRestrictedAreas d m.waypoints < 1000 then 1/5 else 0))) := by
    by_cases ht : weatherTruthy m.weather_conditions
    · simp [fallbackRiskE, hbm, fallbackWind, ht, add_assoc]
    · simp only [fallbackRiskE, hbm, fallbackWind, ht, Option.bind_some,
        Bool.false_eq_true, if_false, Option.some.injEq]
      norm_num [add_assoc]
  have hsum : 0 ≤
      ((if calcRouteLength d m.waypoints > 10 then (3 : ℚ)/10
        else if calcRouteLength d m.waypoints > 5 then 1/10 else 0) +
       (if bm < 10 then 2/5 else if bm < 20 then 1/5 else 0) +
       (if fallbackWind m > 15 then 3/10
        else if fallbackWind m > 10 then 1/10 else 0) +
       (if minDistanceToRestrictedAreas d m.waypoints < 500 then 2/5
        else if minDistanceToRestrictedAreas d m.waypoints < 1000 then 1/5 else 0)) := by
    have i1 := addend_nonneg (calcRouteLength d m.waypoints) (3/10) (1/10) 10 5
      (by norm_num) (by norm_num)
    have i2 : (0 : ℚ) ≤ (if bm < 10 then 2/5 else if bm < 20 then 1/5 else 0) := by
      split_ifs <;> norm_num
    have i3 := addend_nonneg (fallbackWind m) (3/10) (1/10) 15 10 (by norm_num) (by norm_num)
    have i4 : (0 : ℚ) ≤ (if minDistanceToRestrictedAreas d m.waypoints < 500 then 2/5
        else if minDistanceToRestrictedAreas d m.waypoints < 1000 then 1/5 else 0) := by
      split_ifs <;> norm_num
    linarith
  refine ⟨by rw [hmain, hbm]; simp, ?_, ?_, fun m2 h2 => by rw [h2]⟩
  · rw [hmain]
    simp only [Option.getD_some]
    exact le_min (by norm_num) hsum
  · rw [hmain]
    simp only [Option.getD_some]
    exact min_le_left _ _

/-- Witness for C2 at a concrete two-waypoint mission and the constant 3 km
oracle. -/
theorem c2_fallback_risk_formula_witness :
    sampleMissionA.waypoints ≠ [] ∧
    (fallbackRiskE constDist3 sampleMissionA =
      some (min 1
        ((if calcRouteLength constDist3 sampleMissionA.waypoints > 10 then 3/10
          else if calcRouteLength constDist3 sampleMissionA.waypoints > 5 then 1/10 else 0) +
         (if (calcBatteryMarginE constDist3 sampleMissionA).getD 0 < 10 then 2/5
          else if (calcBatteryMarginE constDist3 sampleMissionA).getD 0 < 20 then 1/5 else 0) +
         (if fallbackWind sampleMissionA > 15 then 3/10
          else if fallbackWind sampleMissionA > 10 then 1/10 else 0) +
         (if minDistanceToRestrictedAreas constDist3 sampleMissionA.waypoints < 500 then 2/5
          else if minDistanceToRestrictedAreas constDist3 sampleMissionA.waypoints < 1000
          then 1/5 else 0))) ∧
     0 ≤ (fallbackRiskE constDist3 sampleMissionA).getD 0 ∧
     (fallbackRiskE constDist3 sampleMissionA).getD 0 ≤ 1 ∧
     ∀ m2 : Mission, m2 = sampleMissionA →
       fallbackRiskE constDist3 m2 = fallbackRiskE constDist3 sampleMissionA) :=
  ⟨by simp [sampleMissionA],
   c2_fallback_risk_formula constDist3 sampleMissionA (by simp [sampleMissionA])⟩

/-- Every category is bounded by the maximal category. -/
lemma maxCategory_ge (rb : RiskBreakdown) :
    rb.weather_risk ≤ maxCategory rb ∧ rb.battery_risk ≤ maxCategory rb ∧
    rb.no_fly_risk ≤ maxCategory rb ∧ rb.terrain_risk ≤ maxCategory rb ∧
    rb.route_risk ≤ maxCategory rb ∧ rb.altitude_risk ≤ maxCategory rb := by
  unfold maxCategory
  refine ⟨?_, ?_, ?_, ?_, ?_, ?_⟩
  · exact (le_max_left _ _).trans ((le_max_left _ _).trans (le_max_left _ _))
  · exact (le_max_right _ _).trans ((le_max_left _ _).trans (le_max_left _ _))
  · exact (le_max_left _ _).trans ((le_max_right _ _).trans (le_max_left _ _))
  · exact (le_max_right _ _).trans ((le_max_right _ _).trans (le_max_left _ _))
  · exact (le_max_left _ _).trans (le_max_right _ _)
  · exact (le_max_right _ _).trans (le_max_right _ _)

/-- The maximal category is one of the six categories. -/
lemma maxCategory_cases (rb : RiskBreakdown) :
    maxCategory rb = rb.weather_risk ∨ maxCategory rb = rb.battery_risk ∨
    maxCategory rb = rb.no_fly_risk ∨ maxCategory rb = rb.terrain_risk ∨
    maxCategory rb = rb.route_risk ∨ maxCategory rb = rb.altitude_risk := by
  unfold maxCategory
  rcases max_choice
      (max (max rb.weather_risk rb.battery_risk) (max rb.no_fly_risk rb.terrain_risk))
      (max rb.route_risk rb.altitude_risk) with h | h <;> rw [h]
  · rcases max_choice (max rb.weather_risk rb.battery_risk)
        (max rb.no_fly_risk rb.terrain_risk) with h2 | h2 <;> rw [h2]
    · rcases max_choice rb.weather_risk rb.battery_risk with h3 | h3 <;> rw [h3] <;> tauto
    · rcases max_choice rb.no_fly_risk rb.terrain_risk with h3 | h3 <;> rw [h3] <;> tauto
  · rcases max_choice rb.route_risk rb.altitude_risk with h2 | h2 <;> rw [h2] <;> tauto

/-- The grouped attribution categories are all nonnegative. -/
lemma groupContrib_nonneg (c : FeatureContrib) :
    0 ≤ (groupContrib c).weather_risk ∧ 0 ≤ (groupContrib c).battery_risk ∧
    0 ≤ (groupContrib c).no_fly_risk ∧ 0 ≤ (groupContrib c).terrain_risk ∧
    0 ≤ (groupContrib c).route_risk ∧ 0 ≤ (groupContrib c).altitude_risk := by
  unfold groupContrib
  refine ⟨?_, ?_, ?_, ?_, ?_, ?_⟩ <;> positivity

/-- C4 counterexample: on the deterministic fallback path the returned
breakdown of the two-waypoint sample mission has a nonzero category
(terrain_risk = 0.2) while its maximal category is 0.2, not 1.0: the
fallback path performs no normalization. -/
theorem c4_counterexample :
    (fallbackRiskExplanationE constDist3 sampleMissionA).map maxCategory = some (1/5) ∧
    (1 : ℚ)/5 ≠ 1 ∧
    (fallbackRiskExplanationE constDist3 sampleMissionA).map RiskBreakdown.terrain_risk =
      some (1/5) ∧
    (1 : ℚ)/5 ≠ 0 := by
  have h : fallbackRiskExplanationE constDist3 sampleMissionA =
      some ⟨0, 0, 0, 1/5, 1/5, 1/10⟩ := by
    have hbm : calcBatteryMarginE constDist3 sampleMissionA = some 94 := by
      norm_num [calcBatteryMarginE, sampleMissionA, constDist3, pyMax, calcRouteLength,
        weatherTruthy, max_def]
    have hmin : minDistanceToRestrictedAreas constDist3 sampleMissionA.waypoints = 3000 := by
      norm_num [minDistanceToRestrictedAreas, sampleMissionA, constDist3, pyMinD,
        restrictedZones, min_def]
    simp only [fallbackRiskExplanationE, hbm, hmin, Option.bind_some]
    norm_num [fallbackWind, sampleMissionA, weatherTruthy, calcRouteLength, constDist3,
      min_def, max_def]
  rw [h]
  refine ⟨?_, by norm_num, ?_, by norm_num⟩
  · show some (maxCategory ⟨0, 0, 0, 1/5, 1/5, 1/10⟩) = some (1/5)
    norm_num [maxCategory, max_def]
  · rfl

/-- C4 (amended): on the learned-attribution path the returned breakdown is
normalized so that its maximal category is exactly 1 whenever any of its
categories is nonzero; the deterministic fallback path returns its fixed
per-category formulas without renormalizing, so its maximum can be below 1. -/
theorem c4_amended (c : FeatureContrib)
    (h : maxCategory (explainRiskLearned c) ≠ 0) :
    maxCategory (explainRiskLearned c) = 1 := by
  by_cases hM : maxCategory (groupContrib c) > 0
  · have hnorm : explainRiskLearned c =
        { weather_risk := min 1 (max 0 ((groupContrib c).weather_risk / maxCategory (groupContrib c)))
          battery_risk := min 1 (max 0 ((groupContrib c).battery_risk / maxCategory (groupContrib c)))
          no_fly_risk := min 1 (max 0 ((groupContrib c).no_fly_risk / maxCategory (groupContrib c)))
          terrain_risk := min 1 (max 0 ((groupContrib c).terrain_risk / maxCategory (groupContrib c)))
          route_risk := min 1 (max 0 ((groupContrib c).route_risk / maxCategory (groupContrib c)))
          altitude_risk := min 1 (max 0 ((groupContrib c).altitude_risk / maxCategory (groupContrib c))) } := by
      unfold explainRiskLearned normalizeBreakdown
      rw [if_pos hM]
    have hle : maxCategory (explainRiskLearned c) ≤ 1 := by
      rw [hnorm]
      unfold maxCategory
      exact max_le (max_le (max_le (min_le_left _ _) (min_le_left _ _))
        (max_le (min_le_left _ _) (min_le_left _ _)))
        (max_le (min_le_left _ _) (min_le_left _ _))
    have hge : 1 ≤ maxCategory (explainRiskLearned c) := by
      have hself : maxCategory (groupContrib c) / maxCategory (groupContrib c) = 1 :=
        div_self (ne_of_gt hM)
      rcases maxCategory_cases (groupContrib c) with hf | hf | hf | hf | hf | hf
      · have hfield : (explainRiskLearned c).weather_risk = 1 := by
          rw [hnorm]
          show min 1 (max 0 ((groupContrib c).weather_risk / maxCategory (groupContrib c))) = 1
          rw [← hf, hself]; norm_num
        exact hfield ▸ (maxCategory_ge (explainRiskLearned c)).1
      · have hfield : (explainRiskLearned c).battery_risk = 1 := by
          rw [hnorm]
          show min 1 (max 0 ((groupContrib c).battery_risk / maxCategory (groupContrib c))) = 1
          rw [← hf, hself]; norm_num
        exact hfield ▸ (maxCategory_ge (explainRiskLearned c)).2.1
      · have hfield : (explainRiskLearned c).no_fly_risk = 1 := by
          rw [hnorm]
          show min 1 (max 0 ((groupContrib c).no_fly_risk / maxCategory (groupContrib c))) = 1
          rw [← hf, hself]; norm_num
        exact hfield ▸ (maxCategory_ge (explainRiskLearned c)).2.2.1
      · have hfield : (explainRiskLearned c).terrain_risk = 1 := by
          rw [hnorm]
          show min 1 (max 0 ((groupContrib c).terrain_risk / maxCategory (groupContrib c))) = 1
          rw [← hf, hself]; norm_num
        exact hfield ▸ (maxCategory_ge (explainRiskLearned c)).2.2.2.1
      · have hfield : (explainRiskLearned c).route_risk = 1 := by
          rw [hnorm]
          show min 1 (max 0 ((groupContrib c).route_risk / maxCategory (groupContrib c))) = 1
          rw [← hf, hself]; norm_num
        exact hfield ▸ (maxCategory_ge (explainRiskLearned c)).2.2.2.2.1
      · have hfield : (explainRiskLearned c).altitude_risk = 1 := by
          rw [hnorm]
          show min 1 (max 0 ((groupContrib c).altitude_risk / maxCategory (groupContrib c))) = 1
          rw [← hf, hself]; norm_num
        exact hfield ▸ (maxCategory_ge (explainRiskLearned c)).2.2.2.2.2
    exact le_antisymm hle hge
  · exfalso
    apply h
    have hid : explainRiskLearned c = groupContrib c := by
      unfold explainRiskLearned normalizeBreakdown
      rw [if_neg hM]
    have h0 : 0 ≤ maxCategory (groupContrib c) :=
      (groupContrib_nonneg c).1.trans (maxCategory_ge (groupContrib c)).1
    rw [hid]
    exact le_antisymm (not_lt.mp hM) h0

/-- Witness for C4 (amended) at the all-ones attribution vector. -/
theorem c4_amended_witness :
    maxCategory (explainRiskLearned ⟨1, 1, 1, 1, 1, 1, 1, 1, 1, 1, 1, 1⟩) ≠ 0 ∧
    maxCategory (explainRiskLearned ⟨1, 1, 1, 1, 1, 1, 1, 1, 1, 1, 1, 1⟩) = 1 := by
  have h : maxCategory (explainRiskLearned ⟨1, 1, 1, 1, 1, 1, 1, 1, 1, 1, 1, 1⟩) ≠ 0 := by
    norm_num [explainRiskLearned, normalizeBreakdown, groupContrib, maxCategory,
      min_def, max_def]
  exact ⟨h, c4_amended ⟨1, 1, 1, 1, 1, 1, 1, 1, 1, 1, 1, 1⟩ h⟩

/-- Folding min over a list stays below the initial accumulator. -/
lemma foldl_min_le_init (as : List ℚ) (a : ℚ) : as.foldl min a ≤ a := by
  induction as generalizing a with
  | nil => simp
  | cons b bs ih => exact (ih (min a b)).trans (min_le_left a b)

/-- Folding min over a list stays below every member. -/
lemma foldl_min_le_mem (as : List ℚ) (a : ℚ) : ∀ x ∈ as, as.foldl min a ≤ x := by
  induction as generalizing a with
  | nil => simp
  | cons b bs ih =>
    intro x hx
    rcases List.mem_cons.mp hx with rfl | hx
    · exact (foldl_min_le_init bs (min a x)).trans (min_le_right a x)
    · exact ih (min a b) x hx

/-- A lower bound of the accumulator and all members bounds the min fold. -/
lemma le_foldl_min (as : List ℚ) (a c : ℚ) (hc : c ≤ a) (h : ∀ x ∈ as, c ≤ x) :
    c ≤ as.foldl min a := by
  induction as generalizing a with
  | nil => simpa using hc
  | cons b bs ih =>
    exact ih (min a b) (le_min hc (h b (List.mem_cons_self b bs)))
      (fun x hx => h x (List.mem_cons_of_mem b hx))

/-- The Python min pattern returns 0 on a list of nonnegative values
containing 0. -/
lemma pyMinD_eq_zero (dflt : ℚ) (l : List ℚ) (h0 : (0 : ℚ) ∈ l)
    (hn : ∀ x ∈ l, 0 ≤ x) : pyMinD dflt l = 0 := by
  cases l with
  | nil => simp at h0
  | cons a as =>
    show as.foldl min a = 0
    refine le_antisymm ?_ ?_
    · rcases List.mem_cons.mp h0 with ha | ha
      · rw [← ha]
        exact foldl_min_le_init as 0
      · exact foldl_min_le_mem as a 0 ha
    · exact le_foldl_min as a 0 (hn a (List.mem_cons_self a as))
        (fun x hx => hn x (List.mem_cons_of_mem a hx))

/-- C8: when some waypoint of the mission sits exactly on a restricted-zone
centre point (and the distance oracle is a metric-like function: zero on the
diagonal, nonnegative), the extracted min_distance_to_no_fly value is 0 and
the fallback explanation's no_fly_risk category is exactly 1. -/
theorem c8_zone_center (d : GeoDist) (m : Mission) (wp : Waypoint)
    (hmem : wp ∈ m.waypoints) (hz : (wp.lat, wp.lng) ∈ restrictedZones)
    (hd0 : ∀ p, d p p = 0) (hdn : ∀ p q, 0 ≤ d p q) :
    minDistanceToRestrictedAreas d m.waypoints = 0 ∧
    (fallbackRiskExplanationE d m).map RiskBreakdown.no_fly_risk = some 1 := by
  have hmin : minDistanceToRestrictedAreas d m.waypoints = 0 := by
    unfold minDistanceToRestrictedAreas
    apply pyMinD_eq_zero
    · rw [List.mem_flatten]
      refine ⟨restrictedZones.map (fun z => 1000 * d (wp.lat, wp.lng) z),
        List.mem_map_of_mem _ hmem, ?_⟩
      have : (0 : ℚ) = 1000 * d (wp.lat, wp.lng) (wp.lat, wp.lng) := by
        rw [hd0]; ring
      rw [this]
      exact List.mem_map_of_mem _ hz
    · intro x hx
      rw [List.mem_flatten] at hx
      obtain ⟨l, hl, hxl⟩ := hx
      rw [List.mem_map] at hl
      obtain ⟨w, _, rfl⟩ := hl
      rw [List.mem_map] at hxl
      obtain ⟨z, _, rfl⟩ := hxl
      have := hdn (w.lat, w.lng) z
      positivity
  obtain ⟨a, as, hwp⟩ : ∃ a as, m.waypoints = a :: as := by
    cases hv : m.waypoints with
    | nil =>
      rw [hv] at hmem
      simp at hmem
    | cons a as => exact ⟨a, as, rfl⟩
  obtain ⟨bm, hbm⟩ : ∃ bm, calcBatteryMarginE d m = some bm := by
    simp [calcBatteryMarginE, hwp, pyMax]
  refine ⟨hmin, ?_⟩
  simp only [fallbackRiskExplanationE, hbm, hmin, Option.bind_some]
  norm_num [max_def]

/-- Witness for C8: the sample mission with a waypoint on the SFO zone
centre under the taxicab oracle. -/
theorem c8_zone_center_witness :
    (⟨(37621311 : ℚ)/1000000, (-122378968 : ℚ)/1000000, 100⟩ : Waypoint) ∈
      sampleZoneMission.waypoints ∧
    (minDistanceToRestrictedAreas taxicab sampleZoneMission.waypoints = 0 ∧
     (fallbackRiskExplanationE taxicab sampleZoneMission).map RiskBreakdown.no_fly_risk =
       some 1) :=
  ⟨List.mem_cons_self _ _,
   c8_zone_center taxicab sampleZoneMission
     ⟨(37621311 : ℚ)/1000000, (-122378968 : ℚ)/1000000, 100⟩
     (List.mem_cons_self _ _) (List.mem_cons_self _ _)
     (fun p => by simp [taxicab]) (fun p q => by unfold taxicab; positivity)⟩

/-- One simulator step lowers the battery (the consumption is nonnegative
when distances and the wind speed are nonnegative) and keeps it at or above
0 (the explicit floor). -/
lemma segmentStep_battery (d : GeoDist) (cosr sqr : ℚ → ℚ) (m : Mission) (mult : ℚ)
    (s e : Waypoint) (n i : ℕ) (st : SimulationState)
    (hw : 0 ≤ fallbackWind m) (hd : ∀ p q, 0 ≤ d p q) (hb : 0 ≤ st.battery) :
    (segmentStep d cosr sqr m mult s e n i st).battery ≤ st.battery ∧
    0 ≤ (segmentStep d cosr sqr m mult s e n i st).battery := by
  have hbat : (segmentStep d cosr sqr m mult s e n i st).battery =
      max 0 (st.battery -
        (if 0 < n then (1000 * d (s.lat, s.lng) (e.lat, e.lng)) / (n : ℚ) else 0) / 1000 *
          2 * (1 + |e.altitude - s.altitude| / 1000) * (1 + fallbackWind m / 10)) := rfl
  have h1 : (0 : ℚ) ≤ 1000 * d (s.lat, s.lng) (e.lat, e.lng) :=
    mul_nonneg (by norm_num) (hd _ _)
  have h2 : (0 : ℚ) ≤ (if 0 < n then (1000 * d (s.lat, s.lng) (e.lat, e.lng)) / (n : ℚ) else 0) := by
    split
    · exact div_nonneg h1 (Nat.cast_nonneg n)
    · exact le_refl 0
  have h3 : (0 : ℚ) ≤ 1 + |e.altitude - s.altitude| / 1000 := by positivity
  have h4 : (0 : ℚ) ≤ 1 + fallbackWind m / 10 := by
    have := div_nonneg hw (by norm_num : (0 : ℚ) ≤ 10)
    linarith
  have hC : (0 : ℚ) ≤
      (if 0 < n then (1000 * d (s.lat, s.lng) (e.lat, e.lng)) / (n : ℚ) else 0) / 1000 *
        2 * (1 + |e.altitude - s.altitude| / 1000) * (1 + fallbackWind m / 10) :=
    mul_nonneg (mul_nonneg (mul_nonneg (div_nonneg h2 (by norm_num)) (by norm_num)) h3) h4
  rw [hbat]
  exact ⟨max_le hb (by linarith), le_max_left _ _⟩

/-- Invariants of the per-step loop: the emitted states chain downward in
battery from the entry state, all stay nonnegative, and the final threaded
state (last emitted, or the entry state when nothing is emitted) is between
0 and the entry battery. -/
lemma runSegmentSteps_battery (f : ℕ → SimulationState → SimulationState)
    (hf : ∀ i st, 0 ≤ st.battery → (f i st).battery ≤ st.battery ∧ 0 ≤ (f i st).battery) :
    ∀ (n i : ℕ) (st : SimulationState), 0 ≤ st.battery →
      List.Chain (fun a b => b.battery ≤ a.battery) st (runSegmentSteps f n i st) ∧
      (∀ x ∈ runSegmentSteps f n i st, 0 ≤ x.battery) ∧
      ((runSegmentSteps f n i st).getLastD st).battery ≤ st.battery ∧
      0 ≤ ((runSegmentSteps f n i st).getLastD st).battery := by
  intro n
  induction n with
  | zero =>
    intro i st hb
    exact ⟨List.Chain.nil, by simp [runSegmentSteps], by simp [runSegmentSteps], by
      simpa [runSegmentSteps] using hb⟩
  | succ n ih =>
    intro i st hb
    obtain ⟨hle, hge⟩ := hf i st hb
    have hstep : runSegmentSteps f (n + 1) i st =
        if (f i st).battery ≤ 0 then [f i st]
        else f i st :: runSegmentSteps f n (i + 1) (f i st) := rfl
    rw [hstep]
    by_cases hz : (f i st).battery ≤ 0
    · simp only [if_pos hz]
      refine ⟨List.Chain.cons hle List.Chain.nil, ?_, ?_, ?_⟩
      · intro x hx
        rw [List.mem_singleton] at hx
        rw [hx]
        exact hge
      · simpa using hle
      · simpa using hge
    · simp only [if_neg hz]
      obtain ⟨ch, hmem, hlast, hlast0⟩ := ih (i + 1) (f i st) hge
      refine ⟨List.Chain.cons hle ch, ?_, ?_, ?_⟩
      · intro x hx
        rcases List.mem_cons.mp hx with rfl | hx
        · exact hge
        · exact hmem x hx
      · rw [List.getLastD_cons]
        exact hlast.trans hle
      · rw [List.getLastD_cons]
        exact hlast0

/-- The per-segment instance of the loop invariants. -/
lemma simulateSegment_battery (d : GeoDist) (cosr sqr : ℚ → ℚ) (m : Mission)
    (mult : ℚ) (s e : Waypoint) (st : SimulationState)
    (hw : 0 ≤ fallbackWind m) (hd : ∀ p q, 0 ≤ d p q) (hb : 0 ≤ st.battery) :
    List.Chain (fun a b => b.battery ≤ a.battery) st (simulateSegment d cosr sqr m mult st s e) ∧
    (∀ x ∈ simulateSegment d cosr sqr m mult st s e, 0 ≤ x.battery) ∧
    ((simulateSegment d cosr sqr m mult st s e).getLastD st).battery ≤ st.battery ∧
    0 ≤ ((simulateSegment d cosr sqr m mult st s e).getLastD st).battery := by
  unfold simulateSegment
  exact runSegmentSteps_battery _
    (fun i st' hb' => segmentStep_battery d cosr sqr m mult s e _ i st' hw hd hb') _ 0 st hb

/-- Chains concatenate along the threaded last element. -/
lemma chain_append_getLastD {α : Type} {r : α → α → Prop} (l1 l2 : List α) (a : α)
    (h1 : List.Chain r a l1) (h2 : List.Chain r (l1.getLastD a) l2) :
    List.Chain r a (l1 ++ l2) := by
  induction l1 generalizing a with
  | nil => simpa using h2
  | cons b bs ih =>
    obtain ⟨hab, hb⟩ := List.chain_cons.mp h1
    rw [List.getLastD_cons] at h2
    exact List.Chain.cons hab (ih b hb h2)

/-- Invariants of the per-segment outer loop: all emitted states chain
downward in battery from the entry state and stay nonnegative, and the final
threaded state has nonnegative battery. -/
lemma simSegments_battery (d : GeoDist) (cosr sqr : ℚ → ℚ) (m : Mission) (mult : ℚ)
    (hw : 0 ≤ fallbackWind m) (hd : ∀ p q, 0 ≤ d p q) :
    ∀ (pairs : List (Waypoint × Waypoint)) (st : SimulationState), 0 ≤ st.battery →
      List.Chain (fun a b => b.battery ≤ a.battery) st
        (simSegments d cosr sqr m mult st pairs).1 ∧
      (∀ x ∈ (simSegments d cosr sqr m mult st pairs).1, 0 ≤ x.battery) ∧
      0 ≤ (simSegments d cosr sqr m mult st pairs).2.battery := by
  intro pairs
  induction pairs with
  | nil =>
    intro st hb
    exact ⟨List.Chain.nil, by simp [simSegments], by simpa [simSegments] using hb⟩
  | cons p rest ih =>
    obtain ⟨s, e⟩ := p
    intro st hb
    obtain ⟨hch, hmem, hlast, hlast0⟩ := simulateSegment_battery d cosr sqr m mult s e st hw hd hb
    have hseq : simSegments d cosr sqr m mult st ((s, e) :: rest) =
        if ((simulateSegment d cosr sqr m mult st s e).getLastD st).battery ≤ 0
        then (simulateSegment d cosr sqr m mult st s e,
              (simulateSegment d cosr sqr m mult st s e).getLastD st)
        else (simulateSegment d cosr sqr m mult st s e ++
                (simSegments d cosr sqr m mult
                  ((simulateSegment d cosr sqr m mult st s e).getLastD st) rest).1,
              (simSegments d cosr sqr m mult
                ((simulateSegment d cosr sqr m mult st s e).getLastD st) rest).2) := rfl
    rw [hseq]
    by_cases hz : ((simulateSegment d cosr sqr m mult st s e).getLastD st).battery ≤ 0
    · simp only [if_pos hz]
      exact ⟨hch, hmem, hlast0⟩
    · simp only [if_neg hz]
      obtain ⟨ch2, hmem2, h2b⟩ :=
        ih ((simulateSegment d cosr sqr m mult st s e).getLastD st) hlast0
      refine ⟨chain_append_getLastD _ _ _ hch ch2, ?_, h2b⟩
      intro x hx
      rcases List.mem_append.mp hx with hx | hx
      · exact hmem x hx
      · exact hmem2 x hx

/-- C6: for every simulation with nonnegative distances, wind speed, battery
capacity and positive max speed and multiplier, the battery values are
non-increasing along the ordered state sequence and never negative, and the
returned success flag holds exactly when the returned final battery exceeds
10. -/
theorem c6_simulation_battery (d : GeoDist) (cosr sqr : ℚ → ℚ) (m : Mission)
    (mult : ℚ) (hw : 0 ≤ fallbackWind m) (hd : ∀ p q, 0 ≤ d p q)
    (hcap : 0 ≤ m.battery_capacity) (hms : 0 < m.max_speed) (hmult : 0 < mult) :
    List.Chain' (fun a b => b.battery ≤ a.battery) (simulateMission d cosr sqr m mult).steps ∧
    (∀ x ∈ (simulateMission d cosr sqr m mult).steps, 0 ≤ x.battery) ∧
    ((simulateMission d cosr sqr m mult).successFlag = true ↔
      10 < (simulateMission d cosr sqr m mult).finalBattery) := by
  unfold simulateMission
  by_cases hlen : m.waypoints.length < 2
  · rw [if_pos hlen]
    refine ⟨List.chain'_nil, by simp [SimResult.steps], ?_⟩
    show false = true ↔ (10 : ℚ) < 0
    norm_num
  · rw [if_neg hlen]
    have hinit : 0 ≤ (initSimState m).battery := hcap
    obtain ⟨hch, hmem, hfin⟩ := simSegments_battery d cosr sqr m mult hw hd
      (m.waypoints.zip m.waypoints.tail) (initSimState m) hinit
    refine ⟨?_, ?_, ?_⟩
    · show List.Chain' _ (simSegments d cosr sqr m mult (initSimState m)
        (m.waypoints.zip m.waypoints.tail)).1
      cases hv : (simSegments d cosr sqr m mult (initSimState m)
          (m.waypoints.zip m.waypoints.tail)).1 with
      | nil => exact List.chain'_nil
      | cons b bs =>
        rw [hv] at hch
        exact (List.chain_cons.mp hch).2
    · intro x hx
      exact hmem x hx
    · show decide _ = true ↔ _
      simp only [decide_eq_true_eq]
      exact Iff.rfl

/-- Witness for C6 at a concrete two-waypoint mission with the constant 1 km
oracle: all hypotheses hold and the invariants follow. -/
theorem c6_simulation_battery_witness :
    (0 : ℚ) ≤ fallbackWind sampleMissionA ∧ (0 : ℚ) ≤ sampleMissionA.battery_capacity ∧
    (0 : ℚ) < sampleMissionA.max_speed ∧ (0 : ℚ) < 1 ∧
    List.Chain' (fun a b => b.battery ≤ a.battery)
      (simulateMission (fun _ _ => 1) (fun _ => 1) (fun _ => 1) sampleMissionA 1).steps ∧
    ((simulateMission (fun _ _ => 1) (fun _ => 1) (fun _ => 1) sampleMissionA 1).successFlag =
        true ↔
      10 < (simulateMission (fun _ _ => 1) (fun _ => 1) (fun _ => 1) sampleMissionA 1).finalBattery) := by
  have h := c6_simulation_battery (fun _ _ => 1) (fun _ => 1) (fun _ => 1) sampleMissionA 1
    (by norm_num [fallbackWind, sampleMissionA, weatherTruthy])
    (fun p q => by norm_num)
    (by norm_num [sampleMissionA]) (by norm_num [sampleMissionA]) (by norm_num)
  exact ⟨by norm_num [fallbackWind, sampleMissionA, weatherTruthy],
    by norm_num [sampleMissionA], by norm_num [sampleMissionA], by norm_num,
    h.1, h.2.2⟩
